import Mathlib

/-!
Verification development for the ScreenPrompt global input interception
subsystem (files `src-tauri/src/mouse_hook.rs`, `keyboard_hook.rs`,
`windows_api.rs`, `lib.rs`).

The Rust code is embedded shallowly: each hook callback becomes a pure
function from its inputs (hook code, message id, event payload) and the
environment it reads (the stored window handle / event-sink reference, the
outcome of the `GetWindowRect` query) to the list of messages it posts and
the result it returns (`consume` = `LRESULT(1)`, `callNext` =
`CallNextHookEx`).  The install / uninstall transitions become functions on
an explicit state record mirroring the `static` atomics, parameterised by
the outcomes of the environment interactions (mutex acquisition, HWND
retrieval, the install handshake delivered over the mpsc channel).
Machine-integer casts (`as i16`, `as u16`, `& 0xFFFF`, `<< 16`) are
modelled with explicit two's-complement wrapping on `Int` / `Nat`.
-/

namespace ScreenPrompt

/-- Two's-complement wrap of an integer into the `i32` range, the value a
Rust `i32` holds after a wrapping computation. -/
def wrapI32 (v : Int) : Int := (v + 2147483648) % 4294967296 - 2147483648

/-- Two's-complement wrap of an integer into the `i16` range (`as i16`). -/
def wrapI16 (v : Int) : Int := (v + 32768) % 65536 - 32768

/-- Truncation of an integer to the `u16` range (`as u16`), always in
`[0, 65536)`. -/
def wrapU16 (v : Int) : Int := v % 65536

/-- `windows` crate constant: the mouse-wheel message id. -/
def WM_MOUSEWHEEL : Nat := 0x020A

/-- `windows` crate constant: the key-down message id. -/
def WM_KEYDOWN : Nat := 0x0100

/-- `windows` crate constant: the virtual-key code of the Escape key. -/
def VK_ESCAPE : Nat := 0x1B

/-- Win32 `POINT`: a cursor position in screen coordinates
(`LONG` = `i32` fields, modelled as `Int`). -/
structure POINT where
  x : Int
  y : Int
deriving DecidableEq, Repr

/-- Win32 `RECT`: a window bounding rectangle in screen coordinates. -/
structure RECT where
  left : Int
  top : Int
  right : Int
  bottom : Int
deriving DecidableEq, Repr

/-- Result of a low-level hook callback: `consume` models returning
`LRESULT(1)` (the event is swallowed), `callNext` models tail-calling
`CallNextHookEx` (the event propagates down the hook chain). -/
inductive HookResult where
  | consume
  | callNext
deriving DecidableEq, Repr

/-- A message posted with `PostMessageW`. -/
structure PostedMessage where
  hwnd : Int
  msg : Nat
  wParam : Nat
  lParam : Int
deriving DecidableEq, Repr

/-- OS-level side effects of `uninstall_hook`, in the order the code
issues them: `unhook` models `UnhookWindowsHookEx`, `postQuit` models
`PostThreadMessageW(_, WM_QUIT, _, _)`. -/
inductive OsAction where
  | unhook (hookPtr : Int)
  | postQuit (threadId : Nat)
deriving DecidableEq, Repr

/-- Outcome of the install handshake as observed by `rx.recv()`:
`ok` is `Ok(Ok((hook_ptr, thread_id)))`, `hookErr` is `Ok(Err(e))`
(`SetWindowsHookExW` refused), `channelErr` is `Err(e)` (the channel
died before delivering a result). -/
inductive HandshakeOutcome where
  | ok (hookPtr : Int) (threadId : Nat)
  | hookErr (e : String)
  | channelErr (e : String)
deriving DecidableEq, Repr

/-- A handshake outcome that makes the install fail. -/
def HandshakeOutcome.isFailure : HandshakeOutcome → Bool
  | .ok _ _ => false
  | .hookErr _ => true
  | .channelErr _ => true

/-- Whether an `Except` value is the `error` variant. -/
def isErr {α β : Type} : Except α β → Bool
  | .error _ => true
  | .ok _ => false

namespace MouseHook

/-- The `static` atomics of `mouse_hook.rs`: `HOOK_HANDLE`,
`WINDOW_HANDLE`, `HOOK_THREAD_ID` (0 encodes null / absent, exactly as in
the code). -/
structure HookState where
  hookHandle : Int
  windowHandle : Int
  hookThreadId : Nat
deriving DecidableEq, Repr

/-- What one invocation of `mouse_hook_proc` reads from its surroundings:
the `WINDOW_HANDLE` atomic, and the outcome of the `GetWindowRect` call on
that handle (`none` = the call returned an error). -/
structure HookEnv where
  window_handle : Int
  getWindowRect : Option RECT
deriving DecidableEq, Repr

/-- The per-event inputs of `mouse_hook_proc`: the hook code, the message
id carried in `w_param`, and the `MSLLHOOKSTRUCT` fields the callback
reads (`pt`, `mouseData : u32`). -/
structure HookInput where
  n_code : Int
  w_param : Nat
  pt : POINT
  mouseData : Nat
deriving DecidableEq, Repr

/-- `fn cursor_in_rect(pt: &POINT, rect: &RECT) -> bool`:
`pt.x >= rect.left && pt.x <= rect.right && pt.y >= rect.top &&
pt.y <= rect.bottom`. -/
def cursor_in_rect (pt : POINT) (rect : RECT) : Bool :=
  decide (pt.x ≥ rect.left) && decide (pt.x ≤ rect.right) &&
  decide (pt.y ≥ rect.top) && decide (pt.y ≤ rect.bottom)

/-- The WPARAM rebuilt by the callback:
`let hi_word = (mouse_struct.mouseData >> 16) as i16;
WPARAM((hi_word as u16 as usize) << 16)`. -/
def wparam_of_mouseData (mouseData : Nat) : Nat :=
  (wrapU16 (wrapI16 ((mouseData >>> 16 : Nat) : Int))).toNat <<< 16

/-- The LPARAM rebuilt by the callback:
`LPARAM(((cursor.y & 0xFFFF) << 16 | (cursor.x & 0xFFFF)) as isize)`,
computed in `i32` arithmetic then sign-extended to `isize`. -/
def lparam_of_cursor (pt : POINT) : Int :=
  wrapI32 (pt.y % 65536 * 65536 + pt.x % 65536)

/-- Low-order 16 bits of an LPARAM value (the packed x coordinate). -/
def lparam_loword (l : Int) : Int := l % 65536

/-- Bits 16..31 of an LPARAM value's 32-bit pattern (the packed y
coordinate). -/
def lparam_hiword (l : Int) : Int := l % 4294967296 / 65536

/-- `unsafe extern "system" fn mouse_hook_proc(n_code, w_param, l_param)`:
on a `WM_MOUSEWHEEL` event with non-negative hook code, a non-null stored
window handle and a successful `GetWindowRect` whose rectangle contains
the cursor, posts one rebuilt wheel message to the window and returns
`LRESULT(1)`; every other path falls through to `CallNextHookEx`. -/
def mouse_hook_proc (env : HookEnv) (input : HookInput) :
    List PostedMessage × HookResult :=
  if 0 ≤ input.n_code ∧ input.w_param = WM_MOUSEWHEEL then
    if env.window_handle ≠ 0 then
      match env.getWindowRect with
      | some rect =>
        if cursor_in_rect input.pt rect then
          ([{ hwnd := env.window_handle
              msg := WM_MOUSEWHEEL
              wParam := wparam_of_mouseData input.mouseData
              lParam := lparam_of_cursor input.pt }], HookResult.consume)
        else ([], HookResult.callNext)
      | none => ([], HookResult.callNext)
    else ([], HookResult.callNext)
  else ([], HookResult.callNext)

/-- `pub fn install_hook(window: WebviewWindow)` of `mouse_hook.rs`.
Parameters stand for the environment interactions, in program order:
`installLock` the result of `get_install_lock().lock()`, `hwndResult` the
result of `window.hwnd()`, `handshake` the result of `rx.recv()` from the
spawned hook thread.  Returns the new state, whether a hook thread was
spawned, and the `Result`. -/
def install_hook (st : HookState) (installLock : Except String Unit)
    (hwndResult : Except String Int) (handshake : HandshakeOutcome) :
    HookState × Bool × Except String Unit :=
  match installLock with
  | .error e => (st, false, .error ("Lock error: " ++ e))
  | .ok _ =>
    if st.hookHandle ≠ 0 then
      (st, false, .ok ())
    else
      match hwndResult with
      | .error e => (st, false, .error ("Failed to get HWND: " ++ e))
      | .ok hwndVal =>
        match handshake with
        | .ok hookPtr threadId =>
          ({ hookHandle := hookPtr, windowHandle := hwndVal,
             hookThreadId := threadId }, true, .ok ())
        | .hookErr e =>
          ({ st with windowHandle := 0 }, true, .error e)
        | .channelErr e =>
          ({ st with windowHandle := 0 }, true,
           .error ("Hook thread communication error: " ++ e))

/-- `pub fn uninstall_hook()` of `mouse_hook.rs`: swap the handle and
thread-id atomics to 0, clear `WINDOW_HANDLE`, and when a handle was
present call `UnhookWindowsHookEx` and then (for a non-zero thread id)
`PostThreadMessageW(.., WM_QUIT, ..)`. -/
def uninstall_hook (st : HookState) (installLock : Except String Unit) :
    HookState × List OsAction × Except String Unit :=
  match installLock with
  | .error e => (st, [], .error ("Lock error: " ++ e))
  | .ok _ =>
    let hookPtr := st.hookHandle
    let threadId := st.hookThreadId
    let st1 : HookState :=
      { hookHandle := 0, windowHandle := 0, hookThreadId := 0 }
    if hookPtr ≠ 0 then
      (st1,
       OsAction.unhook hookPtr ::
         (if threadId ≠ 0 then [OsAction.postQuit threadId] else []),
       .ok ())
    else
      (st1, [], .ok ())

end MouseHook

namespace KeyboardHook

/-- The `static`s of `keyboard_hook.rs`: `KB_HOOK_HANDLE`,
`KB_HOOK_THREAD_ID`, and the content of the `APP_HANDLE` mutex.  The
`AppHandle` itself is opaque to the subsystem (its only use is `emit`),
so only its presence is modelled. -/
structure HookState where
  hookHandle : Int
  hookThreadId : Nat
  appHandleStore : Option Unit
deriving DecidableEq, Repr

/-- The per-event inputs of `keyboard_hook_proc`: hook code, message id,
and the `vkCode` field of the `KBDLLHOOKSTRUCT`. -/
structure HookInput where
  n_code : Int
  w_param : Nat
  vkCode : Nat
deriving DecidableEq, Repr

/-- `unsafe extern "system" fn keyboard_hook_proc(n_code, w_param,
l_param)`: on a `WM_KEYDOWN` of `VK_ESCAPE` with non-negative hook code,
emits `"emergency-unlock"` through the stored app handle when
`get_app_handle_store().lock()` succeeds (`sinkLock = some s`) and the
slot holds a handle (`s = some ()`); in every case the callback falls
through to `CallNextHookEx`.  `sinkLock = none` models a poisoned store
mutex (the `if let Ok(guard)` silently skips). -/
def keyboard_hook_proc (sinkLock : Option (Option Unit))
    (input : HookInput) : List String × HookResult :=
  if 0 ≤ input.n_code ∧ input.w_param = WM_KEYDOWN then
    if input.vkCode = VK_ESCAPE then
      match sinkLock with
      | some (some _) => (["emergency-unlock"], HookResult.callNext)
      | _ => ([], HookResult.callNext)
    else ([], HookResult.callNext)
  else ([], HookResult.callNext)

/-- `pub fn install_hook(app_handle: AppHandle)` of `keyboard_hook.rs`.
`installLock` is the result of `get_install_lock().lock()`, `storeLock`
the result of `get_app_handle_store().lock()` taken to persist the app
handle, `handshake` the result of `rx.recv()`.  Note: unlike the mouse
version, the failure arms do not clear the stored app handle. -/
def install_hook (st : HookState) (installLock : Except String Unit)
    (storeLock : Except String Unit) (handshake : HandshakeOutcome) :
    HookState × Bool × Except String Unit :=
  match installLock with
  | .error e => (st, false, .error ("Lock error: " ++ e))
  | .ok _ =>
    if st.hookHandle ≠ 0 then
      (st, false, .ok ())
    else
      match storeLock with
      | .error e => (st, false, .error ("Lock error: " ++ e))
      | .ok _ =>
        match handshake with
        | .ok hookPtr threadId =>
          ({ hookHandle := hookPtr, hookThreadId := threadId,
             appHandleStore := some () }, true, .ok ())
        | .hookErr e =>
          ({ st with appHandleStore := some () }, true, .error e)
        | .channelErr e =>
          ({ st with appHandleStore := some () }, true,
           .error ("Hook thread communication error: " ++ e))

/-- `pub fn uninstall_hook()` of `keyboard_hook.rs`: swap the handle and
thread-id atomics to 0, clear the app-handle slot when its mutex is
healthy (`if let Ok(mut guard)`; `storeLockOk = false` models the
poisoned case, which silently leaves the slot), and when a handle was
present call `UnhookWindowsHookEx` then `PostThreadMessageW(WM_QUIT)`. -/
def uninstall_hook (st : HookState) (installLock : Except String Unit)
    (storeLockOk : Bool) : HookState × List OsAction × Except String Unit :=
  match installLock with
  | .error e => (st, [], .error ("Lock error: " ++ e))
  | .ok _ =>
    let hookPtr := st.hookHandle
    let threadId := st.hookThreadId
    let st1 : HookState :=
      { hookHandle := 0, hookThreadId := 0,
        appHandleStore := if storeLockOk then none else st.appHandleStore }
    if hookPtr ≠ 0 then
      (st1,
       OsAction.unhook hookPtr ::
         (if threadId ≠ 0 then [OsAction.postQuit threadId] else []),
       .ok ())
    else
      (st1, [], .ok ())

end KeyboardHook

/-- `pub fn check_windows_version()` of `windows_api.rs`: unconditionally
`Ok("Windows 10/11 (version check OK)".to_string())`; no version query is
performed. -/
def check_windows_version : Except String String :=
  .ok "Windows 10/11 (version check OK)"

/-- The `check_windows_version` Tauri command of `lib.rs`: on Windows it
delegates to `windows_api::check_windows_version()`, elsewhere it returns
a fixed error. -/
def check_windows_version_command (isWindows : Bool) : Except String String :=
  if isWindows then check_windows_version
  else
    .error "ScreenPrompt only supports Windows 10 Build 2004+ or Windows 11"

/-- C2: `cursor_in_rect` classifies a point as inside exactly when its x
lies between the rectangle's left and right edges inclusive and its y
between the top and bottom edges inclusive; hence a point on any edge is
inside and a point one unit beyond any edge is outside. -/
theorem c2_hit_test_inclusive (pt : POINT) (rect : RECT) :
    MouseHook.cursor_in_rect pt rect = true ↔
      (rect.left ≤ pt.x ∧ pt.x ≤ rect.right ∧
       rect.top ≤ pt.y ∧ pt.y ≤ rect.bottom) := by
  simp [MouseHook.cursor_in_rect, and_assoc, ge_iff_le]

/-- C3: the keyboard hook callback always delegates to the next hook in
the chain and never returns the consuming result, for every key event and
every state of the emergency event sink. -/
theorem c3_keyboard_never_consumes (sinkLock : Option (Option Unit))
    (input : KeyboardHook.HookInput) :
    (KeyboardHook.keyboard_hook_proc sinkLock input).2 =
      HookResult.callNext ∧
    (KeyboardHook.keyboard_hook_proc sinkLock input).2 ≠
      HookResult.consume := by
  unfold KeyboardHook.keyboard_hook_proc
  split
  · split
    · match sinkLock with
      | some (some _) => exact ⟨rfl, by simp⟩
      | some none => exact ⟨rfl, by simp⟩
      | none => exact ⟨rfl, by simp⟩
    · exact ⟨rfl, by simp⟩
  · exact ⟨rfl, by simp⟩

/-- C1: for a scroll-wheel event with non-negative hook code, a non-null
stored target window and a successfully queried rectangle, the callback
posts exactly one wheel message to the target — the rotation delta in the
high word of its WPARAM and the cursor coordinates packed into its LPARAM
— and consumes the event when the cursor hit-tests inside the rectangle;
when the cursor is outside it posts nothing and delegates to the next
hook. -/
theorem c1_scroll_forward_consume (env : MouseHook.HookEnv)
    (input : MouseHook.HookInput) (rect : RECT)
    (hn : 0 ≤ input.n_code) (hw : input.w_param = WM_MOUSEWHEEL)
    (hh : env.window_handle ≠ 0) (hr : env.getWindowRect = some rect) :
    (MouseHook.cursor_in_rect input.pt rect = true →
      MouseHook.mouse_hook_proc env input =
        ([{ hwnd := env.window_handle, msg := WM_MOUSEWHEEL,
            wParam := MouseHook.wparam_of_mouseData input.mouseData,
            lParam := MouseHook.lparam_of_cursor input.pt }],
         HookResult.consume)) ∧
    (MouseHook.cursor_in_rect input.pt rect = false →
      MouseHook.mouse_hook_proc env input = ([], HookResult.callNext)) ∧
    (input.mouseData < 4294967296 →
      MouseHook.wparam_of_mouseData input.mouseData >>> 16 =
        input.mouseData >>> 16) := by
  refine ⟨?_, ?_, ?_⟩
  · intro hc
    unfold MouseHook.mouse_hook_proc
    rw [hr]
    simp [hn, hw, hh, hc]
  · intro hc
    unfold MouseHook.mouse_hook_proc
    rw [hr]
    simp [hn, hw, hh, hc]
  · intro hlt
    unfold MouseHook.wparam_of_mouseData wrapU16 wrapI16
    simp only [Nat.shiftLeft_eq, Nat.shiftRight_eq_div_pow]
    omega

/-- LPARAM packing extracts: low word of the packed value is the cursor x
reduced modulo 2^16. -/
theorem lparam_loword_pack (pt : POINT) :
    MouseHook.lparam_loword (MouseHook.lparam_of_cursor pt) =
      pt.x % 65536 := by
  unfold MouseHook.lparam_loword MouseHook.lparam_of_cursor wrapI32
  omega

/-- LPARAM packing extracts: high word of the packed value's 32-bit
pattern is the cursor y reduced modulo 2^16. -/
theorem lparam_hiword_pack (pt : POINT) :
    MouseHook.lparam_hiword (MouseHook.lparam_of_cursor pt) =
      pt.y % 65536 := by
  unfold MouseHook.lparam_hiword MouseHook.lparam_of_cursor wrapI32
  omega

/-- C9: when the mouse callback forwards a scroll event, the reposted
LPARAM carries x in its low word and y in its high word, each masked to
16 bits; for any coordinate outside 0..65535 (e.g. negative multi-monitor
coordinates) the forwarded word is the coordinate reduced modulo 2^16,
not the original value. -/
theorem c9_lparam_mod_packing (env : MouseHook.HookEnv)
    (input : MouseHook.HookInput) (rect : RECT)
    (hn : 0 ≤ input.n_code) (hw : input.w_param = WM_MOUSEWHEEL)
    (hh : env.window_handle ≠ 0) (hr : env.getWindowRect = some rect)
    (hc : MouseHook.cursor_in_rect input.pt rect = true) :
    ∃ m : PostedMessage, (MouseHook.mouse_hook_proc env input).1 = [m] ∧
      MouseHook.lparam_loword m.lParam = input.pt.x % 65536 ∧
      MouseHook.lparam_hiword m.lParam = input.pt.y % 65536 ∧
      ((input.pt.x < 0 ∨ 65535 < input.pt.x) →
        MouseHook.lparam_loword m.lParam ≠ input.pt.x) ∧
      ((input.pt.y < 0 ∨ 65535 < input.pt.y) →
        MouseHook.lparam_hiword m.lParam ≠ input.pt.y) := by
  refine ⟨{ hwnd := env.window_handle, msg := WM_MOUSEWHEEL,
            wParam := MouseHook.wparam_of_mouseData input.mouseData,
            lParam := MouseHook.lparam_of_cursor input.pt },
          ?_, ?_, ?_, ?_, ?_⟩
  · unfold MouseHook.mouse_hook_proc
    rw [hr]
    simp [hn, hw, hh, hc]
  · exact lparam_loword_pack input.pt
  · exact lparam_hiword_pack input.pt
  · intro hx
    rw [lparam_loword_pack input.pt]
    omega
  · intro hy
    rw [lparam_hiword_pack input.pt]
    omega

/-- C7: a key-down of the watched unlock key emits exactly one
`emergency-unlock` notification when the sink reference is present and
none when it is absent (or its mutex is poisoned); no other event type or
key code causes an emission. -/
theorem c7_emergency_unlock_emission (sinkLock : Option (Option Unit))
    (input : KeyboardHook.HookInput) :
    ((0 ≤ input.n_code ∧ input.w_param = WM_KEYDOWN ∧
        input.vkCode = VK_ESCAPE) →
      (KeyboardHook.keyboard_hook_proc sinkLock input).1 =
        if sinkLock = some (some ()) then ["emergency-unlock"] else []) ∧
    (¬(input.w_param = WM_KEYDOWN ∧ input.vkCode = VK_ESCAPE) →
      (KeyboardHook.keyboard_hook_proc sinkLock input).1 = []) := by
  constructor
  · rintro ⟨hn, hw, hv⟩
    rcases sinkLock with _ | _ | ⟨⟩ <;>
      simp [KeyboardHook.keyboard_hook_proc, hn, hw, hv]
  · intro hnot
    unfold KeyboardHook.keyboard_hook_proc
    split
    · rename_i hcond
      split
      · rename_i hvk
        exact absurd ⟨hcond.2, hvk⟩ hnot
      · rfl
    · rfl

/-- C8: a scroll-wheel event arriving while the stored target window
reference is null, or while the window-rectangle query fails, posts no
message and delegates to the next hook; no error is surfaced. -/
theorem c8_silent_passthrough (env : MouseHook.HookEnv)
    (input : MouseHook.HookInput)
    (h : env.window_handle = 0 ∨ env.getWindowRect = none) :
    MouseHook.mouse_hook_proc env input = ([], HookResult.callNext) := by
  unfold MouseHook.mouse_hook_proc
  rcases h with h | h
  · simp [h]
  · rw [h]
    by_cases hc : 0 ≤ input.n_code ∧ input.w_param = WM_MOUSEWHEEL
    · rw [if_pos hc]
      by_cases hh : env.window_handle ≠ 0
      · rw [if_pos hh]
      · rw [if_neg hh]
    · rw [if_neg hc]

/-- C10: the platform-version capability probe returns success with a
fixed string on Windows; it performs no version comparison and never
returns an error there. -/
theorem c10_version_probe_constant :
    check_windows_version_command true =
      .ok "Windows 10/11 (version check OK)" ∧
    (∀ e : String, check_windows_version_command true ≠ .error e) ∧
    check_windows_version = .ok "Windows 10/11 (version check OK)" := by
  refine ⟨rfl, ?_, rfl⟩
  intro e h
  simp [check_windows_version_command, check_windows_version] at h

/-- C4 (counterexample): the keyboard watcher's `install_hook` does NOT
clear the stored event-sink reference when the handshake reports failure
— starting from an empty state, a failing install leaves the app handle
persisted while returning the error, contradicting the claim that the
context written in step 3 is cleared before the error is returned. -/
theorem c4_counterexample_keyboard_no_rollback :
    (KeyboardHook.install_hook ⟨0, 0, none⟩ (.ok ()) (.ok ())
        (.hookErr "SetWindowsHookExW failed")).1.appHandleStore =
      some () ∧
    (KeyboardHook.install_hook ⟨0, 0, none⟩ (.ok ()) (.ok ())
        (.hookErr "SetWindowsHookExW failed")).2.2 =
      .error "SetWindowsHookExW failed" :=
  ⟨rfl, rfl⟩

/-- C4 (amended): when install fails after the context was persisted, the
mouse forwarder clears the target window reference before returning the
error, while the keyboard watcher returns the error with the stored
event-sink reference left in place (not cleared). -/
theorem c4_amended_rollback (mst : MouseHook.HookState)
    (kst : KeyboardHook.HookState) (hwndVal : Int)
    (hs hs2 : HandshakeOutcome)
    (hm : mst.hookHandle = 0) (hk : kst.hookHandle = 0)
    (hf : hs.isFailure = true) (hf2 : hs2.isFailure = true) :
    ((MouseHook.install_hook mst (.ok ()) (.ok hwndVal) hs).1.windowHandle
        = 0 ∧
     isErr (MouseHook.install_hook mst (.ok ()) (.ok hwndVal) hs).2.2 =
       true) ∧
    ((KeyboardHook.install_hook kst (.ok ()) (.ok ()) hs2).1.appHandleStore
        = some () ∧
     isErr (KeyboardHook.install_hook kst (.ok ()) (.ok ()) hs2).2.2 =
       true) := by
  constructor
  · cases hs with
    | ok p t => simp [HandshakeOutcome.isFailure] at hf
    | hookErr e => simp [MouseHook.install_hook, hm, isErr]
    | channelErr e => simp [MouseHook.install_hook, hm, isErr]
  · cases hs2 with
    | ok p t => simp [HandshakeOutcome.isFailure] at hf2
    | hookErr e => simp [KeyboardHook.install_hook, hk, isErr]
    | channelErr e => simp [KeyboardHook.install_hook, hk, isErr]

/-- C5: an install call made while the hook state already holds a
non-null handle returns success immediately, spawns no hook thread, and
leaves the state (handle, thread id, context slot) unchanged — for both
the mouse forwarder and the keyboard watcher, whatever the environment
would have answered. -/
theorem c5_install_idempotent (mst : MouseHook.HookState)
    (kst : KeyboardHook.HookState) (hwndResult : Except String Int)
    (storeLock : Except String Unit) (hs hs2 : HandshakeOutcome)
    (hm : mst.hookHandle ≠ 0) (hk : kst.hookHandle ≠ 0) :
    MouseHook.install_hook mst (.ok ()) hwndResult hs =
      (mst, false, .ok ()) ∧
    KeyboardHook.install_hook kst (.ok ()) storeLock hs2 =
      (kst, false, .ok ()) := by
  constructor
  · simp [MouseHook.install_hook, hm]
  · simp [KeyboardHook.install_hook, hk]

/-- C6: uninstall takes and clears the stored handle and thread identity,
clears the context slot, and returns success; with the handle already
empty it issues no OS hook release and no termination signal, and with a
handle present it releases the OS hook before posting the termination
signal to the owning thread. -/
theorem c6_uninstall_take_and_release (mst : MouseHook.HookState)
    (kst : KeyboardHook.HookState) :
    ((MouseHook.uninstall_hook mst (.ok ())).1 =
        { hookHandle := 0, windowHandle := 0, hookThreadId := 0 } ∧
     (MouseHook.uninstall_hook mst (.ok ())).2.2 = .ok () ∧
     (mst.hookHandle = 0 →
       (MouseHook.uninstall_hook mst (.ok ())).2.1 = []) ∧
     (mst.hookHandle ≠ 0 →
       (MouseHook.uninstall_hook mst (.ok ())).2.1 =
         OsAction.unhook mst.hookHandle ::
           (if mst.hookThreadId ≠ 0 then [OsAction.postQuit mst.hookThreadId]
            else []))) ∧
    ((KeyboardHook.uninstall_hook kst (.ok ()) true).1 =
        { hookHandle := 0, hookThreadId := 0, appHandleStore := none } ∧
     (KeyboardHook.uninstall_hook kst (.ok ()) true).2.2 = .ok () ∧
     (kst.hookHandle = 0 →
       (KeyboardHook.uninstall_hook kst (.ok ()) true).2.1 = []) ∧
     (kst.hookHandle ≠ 0 →
       (KeyboardHook.uninstall_hook kst (.ok ()) true).2.1 =
         OsAction.unhook kst.hookHandle ::
           (if kst.hookThreadId ≠ 0 then [OsAction.postQuit kst.hookThreadId]
            else []))) := by
  refine ⟨⟨?_, ?_, ?_, ?_⟩, ⟨?_, ?_, ?_, ?_⟩⟩
  · by_cases h : mst.hookHandle = 0 <;> simp [MouseHook.uninstall_hook, h]
  · by_cases h : mst.hookHandle = 0 <;> simp [MouseHook.uninstall_hook, h]
  · intro h
    simp [MouseHook.uninstall_hook, h]
  · intro h
    simp [MouseHook.uninstall_hook, h]
  · by_cases h : kst.hookHandle = 0 <;>
      simp [KeyboardHook.uninstall_hook, h]
  · by_cases h : kst.hookHandle = 0 <;>
      simp [KeyboardHook.uninstall_hook, h]
  · intro h
    simp [KeyboardHook.uninstall_hook, h]
  · intro h
    simp [KeyboardHook.uninstall_hook, h]

/-- Witness for C1: delta +120 (mouseData high word 120), cursor (50,50)
inside rect (0,0,100,100) — one message is posted, carrying WPARAM
120 << 16 and LPARAM packing (50,50), and the event is consumed. -/
theorem c1_witness :
    MouseHook.mouse_hook_proc ⟨1, some ⟨0, 0, 100, 100⟩⟩
        ⟨0, 522, ⟨50, 50⟩, 7864320⟩ =
      ([⟨1, 522, 7864320, 3276850⟩], HookResult.consume) := by
  have h := (c1_scroll_forward_consume ⟨1, some ⟨0, 0, 100, 100⟩⟩
      ⟨0, 522, ⟨50, 50⟩, 7864320⟩ ⟨0, 0, 100, 100⟩
      (by decide) (by decide) (by decide) rfl).1 (by decide)
  exact h.trans (by decide)

/-- Witness for C2: the corner (0,100) of rect (0,0,100,100) — on the
left and bottom edges — is classified inside. -/
theorem c2_witness :
    MouseHook.cursor_in_rect ⟨0, 100⟩ ⟨0, 0, 100, 100⟩ = true :=
  (c2_hit_test_inclusive ⟨0, 100⟩ ⟨0, 0, 100, 100⟩).mpr (by decide)

/-- Witness for C4 (amended): concrete failing installs — the mouse
forwarder's window reference ends cleared, the keyboard watcher's sink
reference ends still present. -/
theorem c4_witness :
    (MouseHook.install_hook ⟨0, 0, 0⟩ (.ok ()) (.ok 42)
        (.hookErr "refused")).1.windowHandle = 0 ∧
    (KeyboardHook.install_hook ⟨0, 0, none⟩ (.ok ()) (.ok ())
        (.channelErr "closed")).1.appHandleStore = some () := by
  have h := c4_amended_rollback ⟨0, 0, 0⟩ ⟨0, 0, none⟩ 42
      (.hookErr "refused") (.channelErr "closed") rfl rfl rfl rfl
  exact ⟨h.1.1, h.2.1⟩

/-- Witness for C5: with handles 7 and 5 already stored, both installs
are no-op successes. -/
theorem c5_witness :
    MouseHook.install_hook ⟨7, 3, 9⟩ (.ok ()) (.ok 42) (.ok 11 12) =
      (⟨7, 3, 9⟩, false, .ok ()) ∧
    KeyboardHook.install_hook ⟨5, 6, some ()⟩ (.ok ()) (.ok ())
        (.ok 13 14) =
      (⟨5, 6, some ()⟩, false, .ok ()) :=
  c5_install_idempotent ⟨7, 3, 9⟩ ⟨5, 6, some ()⟩ (.ok 42) (.ok ())
    (.ok 11 12) (.ok 13 14) (by decide) (by decide)

/-- Witness for C6: uninstalling with handle 3 / thread 7 stored releases
the hook then posts the quit signal; the keyboard state ends fully
cleared. -/
theorem c6_witness :
    (MouseHook.uninstall_hook ⟨3, 4, 7⟩ (.ok ())).2.1 =
      [OsAction.unhook 3, OsAction.postQuit 7] ∧
    (KeyboardHook.uninstall_hook ⟨2, 6, some ()⟩ (.ok ()) true).1 =
      { hookHandle := 0, hookThreadId := 0, appHandleStore := none } := by
  have h := c6_uninstall_take_and_release ⟨3, 4, 7⟩ ⟨2, 6, some ()⟩
  refine ⟨?_, h.2.1⟩
  exact (h.1.2.2.2 (by decide)).trans (by decide)

/-- Witness for C7: a key-down (0x0100) of Escape (27) with the sink
present emits exactly the `emergency-unlock` notification. -/
theorem c7_witness :
    (KeyboardHook.keyboard_hook_proc (some (some ())) ⟨0, 256, 27⟩).1 =
      ["emergency-unlock"] := by
  have h := (c7_emergency_unlock_emission (some (some ())) ⟨0, 256, 27⟩).1
      ⟨by decide, by decide, by decide⟩
  simpa using h

/-- Witness for C8: a wheel event with a null stored window reference
passes through untouched. -/
theorem c8_witness :
    MouseHook.mouse_hook_proc ⟨0, none⟩ ⟨0, 522, ⟨50, 50⟩, 0⟩ =
      ([], HookResult.callNext) :=
  c8_silent_passthrough ⟨0, none⟩ ⟨0, 522, ⟨50, 50⟩, 0⟩ (Or.inl rfl)

/-- Witness for C9: a forwarded wheel event at cursor (-100, 50) — a
negative multi-monitor coordinate — still produces exactly one posted
message. -/
theorem c9_witness :
    (MouseHook.mouse_hook_proc ⟨1, some ⟨-200, -200, 200, 200⟩⟩
        ⟨0, 522, ⟨-100, 50⟩, 0⟩).1.length = 1 := by
  obtain ⟨m, hm, -, -, -, -⟩ :=
    c9_lparam_mod_packing ⟨1, some ⟨-200, -200, 200, 200⟩⟩
      ⟨0, 522, ⟨-100, 50⟩, 0⟩ ⟨-200, -200, 200, 200⟩
      (by decide) (by decide) (by decide) rfl (by decide)
  rw [hm]
  rfl

end ScreenPrompt
